import Mathlib

/-!
Verification of the TDD workflow state machine of `tdd_agents`
(`supervisor.py` and `workflow.py`): the Supervisor routing policy,
the penalty bookkeeping, and the multi-cycle orchestrator loop.

Python strings are embedded as `String`, Python's `sub in s` membership
test as `pyIn`, and `str.lower()` as `pyLower` (the strings appearing in
the program are ASCII). Python dicts with the fixed key set
{"tester", "implementer", "refactorer"} are embedded as the structure
`PenaltyTable`. Mutation of `self.agent_penalties` is embedded by
explicit state passing: `evaluate_progress` takes the table and returns
the updated table next to the computed transition dictionary.
-/

namespace TddAgents

/-- Embedding of Python list-membership of a character-list pattern at the
head of a character list (helper for `pyIn`). -/
def leadsWith : List Char → List Char → Bool
  | [], _ => true
  | _ :: _, [] => false
  | p :: ps, c :: cs => (p == c) && leadsWith ps cs

/-- Does `pat` occur as a contiguous run somewhere in `s`? (helper for `pyIn`). -/
def hasSub (pat : List Char) : List Char → Bool
  | [] => leadsWith pat []
  | c :: cs => leadsWith pat (c :: cs) || hasSub pat cs

/-- Embedding of Python's `pat in s` substring test on strings. -/
def pyIn (pat s : String) : Bool := hasSub pat.data s.data

/-- Embedding of Python's `str.lower()` for the ASCII strings used by the program. -/
def pyLower (s : String) : String := ⟨s.data.map Char.toLower⟩

/-- Embedding of `self.agent_penalties`, the dict with the fixed keys
`tester`, `implementer`, `refactorer` (supervisor.py line 13). -/
structure PenaltyTable where
  tester : Nat
  implementer : Nat
  refactorer : Nat
deriving Repr, DecidableEq

/-- The fresh table `{"tester": 0, "implementer": 0, "refactorer": 0}`. -/
def initialPenalties : PenaltyTable := ⟨0, 0, 0⟩

/-- Embedding of `agent_name in self.agent_penalties`: the dict's key set. -/
def penaltyKeys : List String := ["tester", "implementer", "refactorer"]

/-- Embedding of `self.agent_penalties[agent_name] += 1` for a name known
to be one of the three keys. -/
def bumpPenalty (pt : PenaltyTable) (agent_name : String) : PenaltyTable :=
  if agent_name = "tester" then { pt with tester := pt.tester + 1 }
  else if agent_name = "implementer" then { pt with implementer := pt.implementer + 1 }
  else if agent_name = "refactorer" then { pt with refactorer := pt.refactorer + 1 }
  else pt

/-- Embedding of `SupervisorAgent._apply_penalty` (supervisor.py lines 56-64). -/
def apply_penalty (pt : PenaltyTable) (agent_name failure_reason : String) : PenaltyTable :=
  if agent_name ∈ penaltyKeys then
    if pyIn "too much code" (pyLower failure_reason) then
      { pt with implementer := pt.implementer + 1 }
    else
      bumpPenalty pt agent_name
  else pt

/-- Embedding of the local `agent_cycle` list of
`SupervisorAgent._get_next_agent` (supervisor.py line 46). -/
def agent_cycle : List String := ["tester", "implementer", "refactorer"]

/-- Embedding of Python's `list.index` on a list of strings: `some i` for the
first index holding the element, `none` when `ValueError` would be raised. -/
def list_index (a : String) : List String → Option Nat
  | [] => none
  | b :: bs => if b = a then some 0 else (list_index a bs).map (· + 1)

/-- Embedding of `SupervisorAgent._get_next_agent` (supervisor.py lines 44-54):
the `try`/`except ValueError` around `agent_cycle.index` becomes a match on
`list_index`. -/
def get_next_agent (current_agent : String) : String :=
  match list_index current_agent agent_cycle with
  | some i => agent_cycle.getD ((i + 1) % agent_cycle.length) "tester"
  | none => "tester"

/-- The dict returned by `SupervisorAgent._decide_next_action`:
keys `agent`, `action`, `reason`. -/
structure NextAction where
  agent : String
  action : String
  reason : String
deriving Repr, DecidableEq

/-- Embedding of `SupervisorAgent._get_retry_count` (supervisor.py lines
118-122): the source is stubbed to always return 0. -/
def get_retry_count (work_dir agent_name : String) : Nat :=
  0

/-- The `failed_agent == "refactorer"` branch of `_decide_next_action`
(supervisor.py lines 94-109), factored over the retry count it reads. -/
def refactorer_failure_decision (retry_count : Nat) : NextAction :=
  if retry_count < 3 then
    ⟨"refactorer", "retry",
      "Refactorer failed but under retry limit (" ++ toString retry_count ++ "/3). Retrying."⟩
  else
    ⟨"implementer", "revert_and_retry",
      "Refactorer exhausted retries. Implementer should revert and try again."⟩

/-- Embedding of `SupervisorAgent._decide_next_action` (supervisor.py lines 66-116). -/
def decide_next_action (failed_agent failure_reason work_dir : String) : NextAction :=
  if failed_agent = "tester" then
    if pyIn "already passes" (pyLower failure_reason) then
      ⟨"refactorer", "refactor",
        "Tester wrote test that already passes, indicating implementer overcoded. Refactoring needed."⟩
    else
      ⟨"tester", "retry", "Tester failed to write appropriate failing test."⟩
  else if failed_agent = "implementer" then
    ⟨"refactorer", "prep_refactor",
      "Implementer failed to make test pass. Refactorer should prepare code structure first."⟩
  else if failed_agent = "refactorer" then
    refactorer_failure_decision (get_retry_count work_dir "refactorer")
  else
    ⟨"tester", "continue", "Default fallback action after failure."⟩

/-- The dict returned by `SupervisorAgent.evaluate_progress`: keys `success`,
`next_agent`, `message`, `action`, and (on failure only) `failure_reason`. -/
structure Transition where
  success : Bool
  next_agent : String
  message : String
  action : String
  failure_reason : Option String
deriving Repr, DecidableEq

/-- Embedding of `SupervisorAgent.evaluate_progress` (supervisor.py lines
15-42). The mutable `self.agent_penalties` is threaded explicitly: the
function returns the updated table together with the transition dict.
The kwargs lookup `kwargs.get("failure_reason", "Unknown failure")` becomes
`Option.getD` on the optional reason argument. -/
def evaluate_progress (pt : PenaltyTable) (agent_name : String) (success : Bool)
    (work_dir : String) (failure_reason? : Option String) : PenaltyTable × Transition :=
  if success then
    let next_agent := get_next_agent agent_name
    (pt, ⟨true, next_agent,
      agent_name ++ " completed successfully. Handing over to " ++ next_agent ++ ".",
      "continue", none⟩)
  else
    let failure_reason := failure_reason?.getD "Unknown failure"
    let pt' := apply_penalty pt agent_name failure_reason
    let next_action := decide_next_action agent_name failure_reason work_dir
    (pt', ⟨false, next_action.agent,
      agent_name ++ " failed: " ++ failure_reason ++ ". Supervisor action: " ++ next_action.reason,
      next_action.action, some failure_reason⟩)

/-- Embedding of `SupervisorAgent.reset_agent_penalties` (supervisor.py
lines 128-130). -/
def reset_agent_penalties (pt : PenaltyTable) : PenaltyTable :=
  ⟨0, 0, 0⟩

/-- The dict produced by the test runners (`TDDWorkflow._run_tests`,
`RefactorerAgent.run_tests`, ...): keys `success`, `stdout`, `stderr`,
`returncode`. -/
structure TestResult where
  success : Bool
  stdout : String
  stderr : String
  returncode : Int
deriving Repr, DecidableEq

/-- The possible outcomes of the `subprocess.run` call inside a test
runner: normal completion with an exit code and captured streams, a
`subprocess.TimeoutExpired` after the 30-second bound, or any other
raised exception carrying its `str(e)` message. -/
inductive ExecResult where
  | completed (returncode : Int) (stdout stderr : String)
  | timedOut
  | raised (msg : String)
deriving Repr, DecidableEq

/-- Embedding of `TDDWorkflow._run_tests` (workflow.py lines 286-317) as a
total function of the subprocess outcome: both `except` clauses become
match arms returning a failed result instead of propagating. -/
def run_tests : ExecResult → TestResult
  | .completed rc out err => ⟨rc == 0, out, err, rc⟩
  | .timedOut => ⟨false, "", "Test execution timed out", -1⟩
  | .raised e => ⟨false, "", e, -1⟩

/-- An agent invocation's outcome as consumed by the workflow loop: the
success flag together with the `failure_reason` entry of the result dict
(absent on success). -/
structure AgentOutcome where
  success : Bool
  failure_reason : Option String
deriving Repr, DecidableEq

/-- Embedding of the decision core of `TDDWorkflow._run_tester_agent`
(workflow.py lines 130-168), as a function of the test run's result: a
passing run yields the fixed failure reason, a failing run is success. -/
def run_tester_agent (test_result : TestResult) : AgentOutcome :=
  if test_result.success then
    ⟨false, some "Test already passes - not a proper failing test"⟩
  else
    ⟨true, none⟩

/-- The collaborators `TDDWorkflow._run_refactorer_agent` calls, over an
abstract working-directory state `σ`: the two test runs, and the
refactorer agent's `refactor_code` / `apply_refactoring` pair
(`apply_refactoring` is the only one that changes the state). -/
structure RefactorCollab (σ : Type) where
  run_tests_before : σ → TestResult
  refactor_code : σ → String
  apply_refactoring : σ → String → σ
  run_tests_after : σ → TestResult

/-- Embedding of `TDDWorkflow._run_refactorer_agent` (workflow.py lines
233-284): returns the outcome, the working state after the invocation, and
whether the `refactor_code`/`apply_refactoring` pair was invoked. -/
def run_refactorer_agent {σ : Type} (c : RefactorCollab σ) (st : σ) :
    AgentOutcome × σ × Bool :=
  let test_result := c.run_tests_before st
  if test_result.success = false then
    (⟨false, some "Tests failing before refactoring - cannot proceed"⟩, st, false)
  else
    let refactor_data := c.refactor_code st
    let st' := c.apply_refactoring st refactor_data
    let test_result_after := c.run_tests_after st'
    if test_result_after.success then
      (⟨true, none⟩, st', true)
    else
      (⟨false, some "Tests failing after refactoring"⟩, st', true)

/-- Embedding of the `try`/`except` boundary of
`TDDWorkflow._run_current_agent` (workflow.py lines 114-128): an exception
raised by the dispatched role body becomes a failed outcome whose reason
carries the exception message. -/
def run_current_agent_boundary (body : Except String AgentOutcome) : AgentOutcome :=
  match body with
  | .ok outcome => outcome
  | .error e => ⟨false, some ("Agent execution error: " ++ e)⟩

/-- Embedding of the agent-name normalisation in
`TDDWorkflow._run_current_agent`: an unknown `current_agent` is replaced by
`tester` before the role body runs. -/
def dispatch_agent (current_agent : String) : String :=
  if current_agent = "tester" then "tester"
  else if current_agent = "implementer" then "implementer"
  else if current_agent = "refactorer" then "refactorer"
  else "tester"

/-- Embedding of the `while` loop of `TDDWorkflow.run` (workflow.py lines
58-97). The role invocations are abstracted by an oracle giving each
cycle's `AgentOutcome` (the loop only inspects the success flag and the
`failure_reason` entry); everything the loop itself does — incrementing
`cycle_count`, calling the supervisor, the `stop` check, updating
`current_agent` — is embedded literally. Returns the final
`(cycle_count, current_agent, penalty table)`. -/
def run_loop (oracle : Nat → AgentOutcome) (work_dir : String) (max_cycles : Nat)
    (pt : PenaltyTable) (current_agent : String) (cycle_count : Nat) :
    Nat × String × PenaltyTable :=
  if cycle_count < max_cycles then
    let cycle_count' := cycle_count + 1
    let agent := dispatch_agent current_agent
    let outcome := oracle cycle_count'
    let res := evaluate_progress pt agent outcome.success work_dir outcome.failure_reason
    if outcome.success = false ∧ res.2.action = "stop" then
      (cycle_count', agent, res.1)
    else
      run_loop oracle work_dir max_cycles res.1 res.2.next_agent cycle_count'
  else
    (cycle_count, current_agent, pt)
termination_by max_cycles - cycle_count
decreasing_by omega

/-- The dict returned by `TDDWorkflow.run` (workflow.py lines 107-112). -/
structure RunResult where
  success : Bool
  cycles_completed : Nat
  final_agent : String
  work_dir : String
deriving Repr, DecidableEq

/-- Embedding of `TDDWorkflow.run` (workflow.py lines 47-112): initial
state `current_agent = "tester"`, `cycle_count = 0`, fresh penalty table. -/
def TDDWorkflow_run (oracle : Nat → AgentOutcome) (work_dir : String)
    (max_cycles : Nat) : RunResult :=
  let final := run_loop oracle work_dir max_cycles initialPenalties "tester" 0
  ⟨true, final.1, final.2.1, work_dir⟩

/-- A concrete refactorer collaborator over `Nat` working states whose
initial test run fails: used to exercise the fail-fast path. -/
def constFailCollab : RefactorCollab Nat :=
  ⟨fun _ => ⟨false, "", "boom", 1⟩, fun _ => "", fun s _ => s, fun _ => ⟨true, "", "", 0⟩⟩

/-! ## Helper lemmas -/

/-- Every branch of `_decide_next_action` yields an action other than
`stop`: the implemented policy reserves `stop` without ever emitting it. -/
theorem decide_next_action_ne_stop (a r wd : String) :
    (decide_next_action a r wd).action ≠ "stop" := by
  unfold decide_next_action refactorer_failure_decision get_retry_count
  repeat' split
  all_goals decide

/-- `evaluate_progress` never returns the `stop` action. -/
theorem evaluate_action_ne_stop (pt : PenaltyTable) (a : String) (s : Bool)
    (wd : String) (r? : Option String) :
    (evaluate_progress pt a s wd r?).2.action ≠ "stop" := by
  cases s
  · exact decide_next_action_ne_stop a (r?.getD "Unknown failure") wd
  · exact (by decide : ("continue" : String) ≠ "stop")

/-- `apply_penalty` never decreases any counter. -/
theorem apply_penalty_mono (pt : PenaltyTable) (a r : String) :
    pt.tester ≤ (apply_penalty pt a r).tester ∧
    pt.implementer ≤ (apply_penalty pt a r).implementer ∧
    pt.refactorer ≤ (apply_penalty pt a r).refactorer := by
  unfold apply_penalty bumpPenalty
  repeat' split
  all_goals simp

/-- The cycle counter of `run_loop` always lands exactly on `max_cycles`
when started at or below it: the `stop` break is unreachable because the
supervisor never emits `stop`. -/
theorem run_loop_cycle_count (oracle : Nat → AgentOutcome) (wd : String) (N : Nat) :
    ∀ (k cc : Nat) (pt : PenaltyTable) (a : String), N - cc = k → cc ≤ N →
      (run_loop oracle wd N pt a cc).1 = N := by
  intro k
  induction k with
  | zero =>
    intro cc pt a hk hle
    have hcc : cc = N := by omega
    subst hcc
    unfold run_loop
    simp
  | succ n ih =>
    intro cc pt a hk hle
    have hlt : cc < N := by omega
    unfold run_loop
    rw [if_pos hlt]
    have hstop : ¬((oracle (cc + 1)).success = false ∧
        (evaluate_progress pt (dispatch_agent a) (oracle (cc + 1)).success wd
          (oracle (cc + 1)).failure_reason).2.action = "stop") := by
      rintro ⟨_, h2⟩
      exact evaluate_action_ne_stop _ _ _ _ _ h2
    rw [if_neg hstop]
    exact ih (cc + 1) _ _ (by omega) (by omega)

/-! ## Claims -/

/-- C1: for every `max_cycles = N` and every sequence of agent outcomes,
`TDDWorkflow.run` executes the loop body exactly `N` times (the cycle
counter goes up by one each iteration) and returns `cycles_completed = N`:
the implemented supervisor never returns `stop`, so only the bound
terminates the loop. -/
theorem run_completes_exactly_max_cycles (oracle : Nat → AgentOutcome)
    (wd : String) (N : Nat) :
    (TDDWorkflow_run oracle wd N).cycles_completed = N := by
  have h := run_loop_cycle_count oracle wd N (N - 0) 0 initialPenalties "tester" rfl
    (Nat.zero_le N)
  simpa [TDDWorkflow_run] using h

/-- C2: the `refactorer`-failure branch routes on the tracked retry count:
strictly below 3 it retries the refactorer, at 3 or above it hands over to
the implementer with `revert_and_retry`; and since the tracked count is the
stubbed `_get_retry_count` (always 0), every actual refactorer failure
evaluates to `refactorer`/`retry`. -/
theorem refactorer_failure_retry_bound :
    (∀ rc : Nat, rc < 3 → (refactorer_failure_decision rc).agent = "refactorer" ∧
      (refactorer_failure_decision rc).action = "retry") ∧
    (∀ rc : Nat, 3 ≤ rc → (refactorer_failure_decision rc).agent = "implementer" ∧
      (refactorer_failure_decision rc).action = "revert_and_retry") ∧
    (∀ wd : String, get_retry_count wd "refactorer" = 0) ∧
    (∀ (pt : PenaltyTable) (wd reason : String),
      (evaluate_progress pt "refactorer" false wd (some reason)).2.next_agent = "refactorer" ∧
      (evaluate_progress pt "refactorer" false wd (some reason)).2.action = "retry") := by
  refine ⟨?_, ?_, fun _ => rfl, fun pt wd reason => ⟨rfl, rfl⟩⟩
  · intro rc h
    unfold refactorer_failure_decision
    rw [if_pos h]
    exact ⟨rfl, rfl⟩
  · intro rc h
    unfold refactorer_failure_decision
    rw [if_neg (by omega)]
    exact ⟨rfl, rfl⟩

/-- C2 witness: both branches exercised at concrete retry counts 0 and 5. -/
theorem refactorer_failure_retry_bound_witness :
    ((0 : Nat) < 3 ∧ (refactorer_failure_decision 0).agent = "refactorer") ∧
    ((3 : Nat) ≤ 5 ∧ (refactorer_failure_decision 5).action = "revert_and_retry") :=
  ⟨⟨by decide, (refactorer_failure_retry_bound.1 0 (by decide)).1⟩,
   ⟨by decide, (refactorer_failure_retry_bound.2.1 5 (by decide)).2⟩⟩

/-- On failure, the updated penalty table of `evaluate_progress` is exactly
what `_apply_penalty` computes. -/
theorem evaluate_failure_table (pt : PenaltyTable) (a wd reason : String) :
    (evaluate_progress pt a false wd (some reason)).1 = apply_penalty pt a reason :=
  rfl

/-- C3 counterexample: a Refactorer failure whose reason is the string
"too much code" increments the Implementer's counter, not the
Refactorer's own, contradicting the claim that every non-Tester failure
increments the failing role's own counter. -/
theorem penalty_attribution_counterexample :
    (evaluate_progress initialPenalties "refactorer" false "work"
        (some "too much code")).1 = ⟨0, 1, 0⟩ ∧
    (evaluate_progress initialPenalties "refactorer" false "work"
        (some "too much code")).1.refactorer ≠ initialPenalties.refactorer + 1 := by
  exact ⟨rfl, by decide⟩

/-- C3 amended: the penalty check on "too much code" is keyed on the
failure reason alone, not on the failing role: any of the three roles
failing with a reason containing "too much code" (case-insensitively)
increments the Implementer's counter and nothing else; with any other
reason, the failing role's own counter is incremented by exactly 1 and no
other counter changes. -/
theorem penalty_attribution_amended :
    (∀ (pt : PenaltyTable) (wd reason a : String), a ∈ penaltyKeys →
      pyIn "too much code" (pyLower reason) = true →
      (evaluate_progress pt a false wd (some reason)).1 =
        { pt with implementer := pt.implementer + 1 }) ∧
    (∀ (pt : PenaltyTable) (wd reason : String),
      pyIn "too much code" (pyLower reason) = false →
      (evaluate_progress pt "tester" false wd (some reason)).1 =
        { pt with tester := pt.tester + 1 } ∧
      (evaluate_progress pt "implementer" false wd (some reason)).1 =
        { pt with implementer := pt.implementer + 1 } ∧
      (evaluate_progress pt "refactorer" false wd (some reason)).1 =
        { pt with refactorer := pt.refactorer + 1 }) := by
  constructor
  · intro pt wd reason a ha h
    rw [evaluate_failure_table]
    unfold apply_penalty
    rw [if_pos ha, if_pos h]
  · intro pt wd reason h
    refine ⟨?_, ?_, ?_⟩ <;>
      (rw [evaluate_failure_table]; unfold apply_penalty;
       rw [if_pos (by decide), if_neg (by simp [h])]; rfl)

/-- C3 amended witness: a Refactorer failure with reason "Too MUCH code!"
lands the penalty on the Implementer. -/
theorem penalty_attribution_amended_witness :
    (("refactorer" : String) ∈ penaltyKeys ∧
      pyIn "too much code" (pyLower "Too MUCH code!") = true ∧
      (evaluate_progress initialPenalties "refactorer" false "work"
          (some "Too MUCH code!")).1 =
        { initialPenalties with implementer := initialPenalties.implementer + 1 }) ∧
    (pyIn "too much code" (pyLower "Tests failing after refactoring") = false ∧
      (evaluate_progress initialPenalties "refactorer" false "work"
          (some "Tests failing after refactoring")).1 =
        { initialPenalties with refactorer := initialPenalties.refactorer + 1 }) :=
  ⟨⟨by decide, by decide,
      penalty_attribution_amended.1 initialPenalties "work" "Too MUCH code!" "refactorer"
        (by decide) (by decide)⟩,
   ⟨by decide,
      (penalty_attribution_amended.2 initialPenalties "work"
        "Tests failing after refactoring" (by decide)).2.2⟩⟩

/-- C4: the Tester invocation has a single failure reason for a test that
passes immediately — "Test already passes - not a proper failing test" —
and that reason contains "already passes" but not "too much code", so the
supervisor routes to the Refactorer with action `refactor` while the
penalty lands on the Tester's own counter, never the Implementer's. -/
theorem tester_already_passes_attribution :
    (∀ tr : TestResult, tr.success = true →
      run_tester_agent tr =
        ⟨false, some "Test already passes - not a proper failing test"⟩) ∧
    (∀ tr : TestResult, (run_tester_agent tr).success = false →
      (run_tester_agent tr).failure_reason =
        some "Test already passes - not a proper failing test") ∧
    pyIn "already passes"
      (pyLower "Test already passes - not a proper failing test") = true ∧
    pyIn "too much code"
      (pyLower "Test already passes - not a proper failing test") = false ∧
    (∀ (pt : PenaltyTable) (wd : String),
      (evaluate_progress pt "tester" false wd
          (some "Test already passes - not a proper failing test")).2.next_agent =
        "refactorer" ∧
      (evaluate_progress pt "tester" false wd
          (some "Test already passes - not a proper failing test")).2.action =
        "refactor" ∧
      (evaluate_progress pt "tester" false wd
          (some "Test already passes - not a proper failing test")).1 =
        { pt with tester := pt.tester + 1 }) := by
  refine ⟨?_, ?_, by decide, by decide, fun pt wd => ⟨rfl, rfl, rfl⟩⟩
  · intro tr h
    unfold run_tester_agent
    rw [if_pos h]
  · intro tr h
    cases htr : tr.success
    · exfalso
      unfold run_tester_agent at h
      rw [if_neg (by simp [htr])] at h
      simp at h
    · unfold run_tester_agent
      rw [if_pos htr]

/-- C4 witness: a concrete passing test result produces exactly the fixed
failure reason. -/
theorem tester_already_passes_attribution_witness :
    (({ success := true, stdout := "", stderr := "", returncode := 0 } :
        TestResult).success = true) ∧
    run_tester_agent { success := true, stdout := "", stderr := "", returncode := 0 } =
      ⟨false, some "Test already passes - not a proper failing test"⟩ :=
  ⟨rfl, tester_already_passes_attribution.1 _ rfl⟩

/-- C5: a Tester failure routes to the Refactorer with action `refactor`
exactly when the lowered failure reason contains "already passes", and to
the Tester itself with action `retry` otherwise. -/
theorem tester_failure_routing (pt : PenaltyTable) (wd reason : String) :
    ((evaluate_progress pt "tester" false wd (some reason)).2.next_agent,
      (evaluate_progress pt "tester" false wd (some reason)).2.action) =
      if pyIn "already passes" (pyLower reason) then ("refactorer", "refactor")
      else ("tester", "retry") := by
  have e1 : (evaluate_progress pt "tester" false wd (some reason)).2.next_agent =
      (decide_next_action "tester" reason wd).agent := rfl
  have e2 : (evaluate_progress pt "tester" false wd (some reason)).2.action =
      (decide_next_action "tester" reason wd).action := rfl
  rw [e1, e2]
  cases h : pyIn "already passes" (pyLower reason)
  · simp [decide_next_action, h]
  · simp [decide_next_action, h]

/-- C6: on success the supervisor hands control to the successor in the
fixed cycle tester → implementer → refactorer → tester with action
`continue`, and a role name outside the cycle falls back to the tester. -/
theorem success_routes_to_successor :
    (∀ (pt : PenaltyTable) (wd : String) (r? : Option String),
      (evaluate_progress pt "tester" true wd r?).2.next_agent = "implementer" ∧
      (evaluate_progress pt "tester" true wd r?).2.action = "continue") ∧
    (∀ (pt : PenaltyTable) (wd : String) (r? : Option String),
      (evaluate_progress pt "implementer" true wd r?).2.next_agent = "refactorer" ∧
      (evaluate_progress pt "implementer" true wd r?).2.action = "continue") ∧
    (∀ (pt : PenaltyTable) (wd : String) (r? : Option String),
      (evaluate_progress pt "refactorer" true wd r?).2.next_agent = "tester" ∧
      (evaluate_progress pt "refactorer" true wd r?).2.action = "continue") ∧
    (∀ (s : String) (pt : PenaltyTable) (wd : String) (r? : Option String),
      s ≠ "tester" → s ≠ "implementer" → s ≠ "refactorer" →
      (evaluate_progress pt s true wd r?).2.next_agent = "tester" ∧
      (evaluate_progress pt s true wd r?).2.action = "continue") := by
  refine ⟨fun _ _ _ => ⟨rfl, rfl⟩, fun _ _ _ => ⟨rfl, rfl⟩, fun _ _ _ => ⟨rfl, rfl⟩, ?_⟩
  intro s pt wd r? h1 h2 h3
  refine ⟨?_, rfl⟩
  show get_next_agent s = "tester"
  simp [get_next_agent, agent_cycle, list_index, Ne.symm h1, Ne.symm h2, Ne.symm h3]

/-- C6 witness: the unknown role name "supervisor" falls back to the tester. -/
theorem success_routes_to_successor_witness :
    ("supervisor" : String) ≠ "tester" ∧
    (evaluate_progress initialPenalties "supervisor" true "work" none).2.next_agent =
      "tester" :=
  ⟨by decide, (success_routes_to_successor.2.2.2 "supervisor" initialPenalties "work"
      none (by decide) (by decide) (by decide)).1⟩

/-- C7: the transition returned by `evaluate_progress` does not depend on
the hidden penalty state: evaluating twice in a row with identical
arguments — the second call seeing the table mutated by the first —
returns an identical transition dict. -/
theorem evaluate_progress_idempotent (pt : PenaltyTable) (agent : String)
    (success : Bool) (wd : String) (r? : Option String) :
    (evaluate_progress (evaluate_progress pt agent success wd r?).1 agent success wd
        r?).2 =
      (evaluate_progress pt agent success wd r?).2 := by
  cases success <;> rfl

/-- C8: when the Refactorer invocation's initial test run fails, the
invocation fails fast with the fixed reason (which contains "tests failing
before refactoring" up to case), the working state is returned unchanged,
and the `refactor_code`/`apply_refactoring` pair is never invoked. -/
theorem refactorer_precondition_fail_fast :
    (∀ (σ : Type) (c : RefactorCollab σ) (st : σ),
      (c.run_tests_before st).success = false →
      run_refactorer_agent c st =
        (⟨false, some "Tests failing before refactoring - cannot proceed"⟩, st, false)) ∧
    pyIn "tests failing before refactoring"
      (pyLower "Tests failing before refactoring - cannot proceed") = true := by
  refine ⟨?_, by decide⟩
  intro σ c st h
  simp [run_refactorer_agent, h]

/-- C8 witness: a collaborator whose first test run fails triggers the
fail-fast path at the concrete state 0. -/
theorem refactorer_precondition_fail_fast_witness :
    (constFailCollab.run_tests_before 0).success = false ∧
    run_refactorer_agent constFailCollab 0 =
      (⟨false, some "Tests failing before refactoring - cannot proceed"⟩, 0, false) :=
  ⟨rfl, refactorer_precondition_fail_fast.1 Nat constFailCollab 0 rfl⟩

/-- C9: test execution and the role-invocation boundary never propagate an
exception: a timeout or raised exception yields a failed result carrying
the message in `stderr`, only a zero-exit completion can yield success,
and an exception escaping a role body becomes a failed outcome with an
"Agent execution error" reason. -/
theorem test_execution_never_raises :
    ((run_tests .timedOut).success = false ∧
      (run_tests .timedOut).stderr = "Test execution timed out") ∧
    (∀ e : String, (run_tests (.raised e)).success = false ∧
      (run_tests (.raised e)).stderr = e) ∧
    (∀ o : ExecResult, (run_tests o).success = true →
      ∃ rc out err, o = ExecResult.completed rc out err ∧ (rc == 0) = true) ∧
    (∀ e : String, run_current_agent_boundary (.error e) =
      ⟨false, some ("Agent execution error: " ++ e)⟩) := by
  refine ⟨⟨rfl, rfl⟩, fun e => ⟨rfl, rfl⟩, ?_, fun e => rfl⟩
  intro o h
  cases o with
  | completed rc out err => exact ⟨rc, out, err, rfl, h⟩
  | timedOut => simp [run_tests] at h
  | raised e => simp [run_tests] at h

/-- C9 witness: a zero-exit completion is the success case. -/
theorem test_execution_never_raises_witness :
    (run_tests (.completed 0 "" "")).success = true ∧
    ∃ rc out err, ExecResult.completed (0 : Int) "" "" =
      ExecResult.completed rc out err ∧ (rc == 0) = true :=
  ⟨rfl, test_execution_never_raises.2.2.1 (.completed 0 "" "") rfl⟩

/-- C10: penalty counters never decrease across `evaluate_progress`, a
successful evaluation leaves the whole table unchanged, and the only
decreasing operation is the explicit reset, which zeroes all three
counters. -/
theorem penalty_table_monotone :
    (∀ (pt : PenaltyTable) (agent : String) (s : Bool) (wd : String)
        (r? : Option String),
      pt.tester ≤ (evaluate_progress pt agent s wd r?).1.tester ∧
      pt.implementer ≤ (evaluate_progress pt agent s wd r?).1.implementer ∧
      pt.refactorer ≤ (evaluate_progress pt agent s wd r?).1.refactorer) ∧
    (∀ (pt : PenaltyTable) (agent wd : String) (r? : Option String),
      (evaluate_progress pt agent true wd r?).1 = pt) ∧
    (∀ pt : PenaltyTable, reset_agent_penalties pt = ⟨0, 0, 0⟩) := by
  refine ⟨?_, fun _ _ _ _ => rfl, fun _ => rfl⟩
  intro pt agent s wd r?
  cases s
  · exact apply_penalty_mono pt agent (r?.getD "Unknown failure")
  · exact ⟨le_refl _, le_refl _, le_refl _⟩

end TddAgents
